import Mathlib

/-!
Verification development for the hexagon geospatial analyzer
(backend/geospatial_analyzer.py).

The geometry builder create_hexagon_projected is embedded over the real
numbers. The analysis pipeline analyze_hexagon is embedded as a function
over an environment of oracles standing for the external geometry/raster
library calls (file opening, reprojection, overlay intersection, raster
masking, buffering): each oracle returns the data the library call would
return, or an error standing for a raised exception. The repository's own
logic -- bounds checking, the recentring fallback, per-metric exception
handling, buffer-width classification, land-use grouping and aggregation,
and assembly of the result mapping -- is translated directly from the
source.
-/

/- ## String helpers: Python's substring containment test -/

/-- Does the first list occur as a leading segment of the second? -/
def startsWithChars : List Char → List Char → Bool
  | [], _ => true
  | _ :: _, [] => false
  | a :: as, b :: bs => a == b && startsWithChars as bs

/-- Does the first list occur as a contiguous sublist of the second? -/
def hasSubChars : List Char → List Char → Bool
  | needle, [] => needle.isEmpty
  | needle, b :: rest => startsWithChars needle (b :: rest) || hasSubChars needle rest

/-- Python's `needle in hay` on strings. -/
def strContains (hay needle : String) : Bool :=
  hasSubChars needle.toList hay.toList

/-- Python's str.lower(), character by character. -/
def pyLower (s : String) : String :=
  String.mk (s.data.map Char.toLower)

/-- Lexicographic comparison of character lists by code point. -/
def charListLt : List Char → List Char → Bool
  | [], [] => false
  | [], _ :: _ => true
  | _ :: _, [] => false
  | a :: as, b :: bs => a.toNat < b.toNat || (a == b && charListLt as bs)

/-- Python's `a < b` on strings: lexicographic by code point. -/
def strLtB (a b : String) : Bool := charListLt a.toList b.toList

/- ## List helpers mirroring numpy/pandas reductions -/

variable {α : Type} [LinearOrderedField α]

/-- np.min of a value list (0 on empty; the code only calls it nonempty). -/
def npMin : List α → α
  | [] => 0
  | x :: xs => xs.foldl min x

/-- np.max of a value list (0 on empty; the code only calls it nonempty). -/
def npMax : List α → α
  | [] => 0
  | x :: xs => xs.foldl max x

/- ## Result values: entries of the Python results dict -/

/-- A value stored in the results dict: a float, a string, or a
string-to-float mapping (the land-use breakdown). -/
inductive Value (α : Type) where
  | num : α → Value α
  | str : String → Value α
  | dict : List (String × α) → Value α
deriving DecidableEq

/-- Dict lookup on an association list with unique keys. -/
def getVal (m : List (String × Value α)) (k : String) : Option (Value α) :=
  (m.find? (fun kv => kv.1 == k)).map (fun kv => kv.2)

/- ## Raster bounds (rasterio BoundingBox: left, bottom, right, top) -/

structure Bounds (α : Type) where
  left : α
  bottom : α
  right : α
  top : α

/-- The bounds check of analyze_hexagon, lines 106-107:
hex[0] > dem[2] or hex[2] < dem[0] or hex[1] > dem[3] or hex[3] < dem[1]. -/
def boundsDisjoint (hexb demb : Bounds α) : Bool :=
  decide (hexb.left > demb.right) || decide (hexb.right < demb.left) ||
  decide (hexb.bottom > demb.top) || decide (hexb.top < demb.bottom)

/-- Center of a bounding box, as computed at lines 113-114:
((left + right) / 2, (bottom + top) / 2). -/
def bboxCenter (b : Bounds α) : α × α :=
  ((b.left + b.right) / 2, (b.bottom + b.top) / 2)

/- ## The environment of external library calls

A hexagon is identified by its projected center: within one call the
radius is fixed, so every hexagon the code can build is determined by the
center point passed to create_hexagon_projected. Oracles therefore take
the hexagon's center. -/

/-- The successfully opened DEM dataset, together with the prelude of
analyze_hexagon that runs before the bounds check: `bounds` is
dem_dataset.bounds; `center` is the transformer's projected center for the
requested (lat, lon); `elev` is the rasterio mask + nodata filtering of
lines 124-134, returning the valid elevation values inside the given
hexagon, or an error for a raised exception. -/
structure DemData (α : Type) where
  bounds : Bounds α
  center : α × α
  elev : (α × α) → Except Unit (List α)

/-- One water-way feature after intersection with the hexagon: its
attribute row (column name, string value), its geometry type, and the
library's buffered-area function width ↦ geom.buffer(width).area. -/
structure WaterWayFeature (α : Type) where
  attrs : List (String × String)
  geomType : String
  bufferArea : α → α

/-- The water data obtained inside the big try of lines 223-290: areas of
the water-zone polygons intersected with the hexagon, and the intersected
water-way features. -/
structure WaterData (α : Type) where
  zoneAreas : List α
  ways : List (WaterWayFeature α)

/-- One intersected land-use feature: its attribute row and its
intersected area (the 'area' column of line 311). -/
structure LanduseRow (α : Type) where
  attrs : List (String × String)
  area : α
deriving DecidableEq

/-- The land-use GeoDataFrame after intersection with the hexagon:
its column names and its feature rows. -/
structure LanduseData (α : Type) where
  columns : List String
  rows : List (LanduseRow α)
deriving DecidableEq

/-- The external world of one analyze_hexagon call. `demOpen` covers the
outer try's prelude (rasterio.open, CRS transform, hexagon GeoDataFrame
construction, bounds read): an error is an exception anywhere there. The
layer fields are None when the shapefile failed to load at startup
(roads/buildings/landuse) and otherwise map a hexagon center to the
intersected data or an error for an exception inside that metric's try;
`water` covers the per-call file reads of lines 225-226 as well. -/
structure Env (α : Type) where
  demOpen : Except Unit (DemData α)
  hexBounds : (α × α) → Bounds α
  hexArea : (α × α) → α
  roads : Option ((α × α) → Except Unit (List α))
  buildings : Option ((α × α) → Except Unit (List α))
  water : (α × α) → Except Unit (WaterData α)
  landuse : Option ((α × α) → Except Unit (LanduseData α))

/- ## Metric computations, translated from analyze_hexagon -/

/-- Elevation analysis, lines 121-151: min/mean/max of the valid
elevations when nonempty, zeros when empty or on exception. -/
def elevationResults (dem : DemData α) (hex : α × α) : List (String × Value α) :=
  match dem.elev hex with
  | .ok vals =>
    if 0 < vals.length then
      [("elevation_min", Value.num (npMin vals)),
       ("elevation_mean", Value.num (vals.sum / (vals.length : α))),
       ("elevation_max", Value.num (npMax vals))]
    else
      [("elevation_min", Value.num 0),
       ("elevation_mean", Value.num 0),
       ("elevation_max", Value.num 0)]
  | .error _ =>
      [("elevation_min", Value.num 0),
       ("elevation_mean", Value.num 0),
       ("elevation_max", Value.num 0)]

/-- Roads analysis, lines 159-185: sum of intersected segment lengths,
0 when empty, on exception, or when the layer never loaded. -/
def roadsResults (roads : Option ((α × α) → Except Unit (List α)))
    (hex : α × α) : List (String × Value α) :=
  match roads with
  | some layer =>
    match layer hex with
    | .ok segs =>
      if 0 < segs.length then [("total_road_length_m", Value.num segs.sum)]
      else [("total_road_length_m", Value.num 0)]
    | .error _ => [("total_road_length_m", Value.num 0)]
  | none => [("total_road_length_m", Value.num 0)]

/-- Buildings analysis, lines 187-220: summed intersected area and
density = area / hexagon area (0 when hexagon area is not positive);
zeros when empty, on exception, or when the layer never loaded. -/
def buildingsResults (buildings : Option ((α × α) → Except Unit (List α)))
    (hexArea : α) (hex : α × α) : List (String × Value α) :=
  match buildings with
  | some layer =>
    match layer hex with
    | .ok areas =>
      if 0 < areas.length then
        [("building_density",
          Value.num (if 0 < hexArea then areas.sum / hexArea else 0)),
         ("total_building_area_sq_m", Value.num areas.sum)]
      else
        [("building_density", Value.num 0),
         ("total_building_area_sq_m", Value.num 0)]
    | .error _ =>
        [("building_density", Value.num 0),
         ("total_building_area_sq_m", Value.num 0)]
  | none =>
      [("building_density", Value.num 0),
       ("total_building_area_sq_m", Value.num 0)]

/- ## Water composite, lines 222-295 -/

/-- The buffer_widths dict of lines 249-255, in insertion order. -/
def buffer_widths (α : Type) [LinearOrderedField α] : List (String × α) :=
  [("river", 20), ("stream", 5), ("canal", 10), ("drain", 2), ("default", 5)]

/-- The loop of lines 266-269 (and 272-275): starting from the default 5,
take the first dict key contained as a substring in the lower-cased
attribute value; keep 5 when none matches. -/
def widthFromValue (v : String) : α :=
  match (buffer_widths α).find? (fun kv => strContains (pyLower v) kv.1) with
  | some kv => kv.2
  | none => 5

/-- Pandas row attribute lookup: `'k' in row` / `row['k']`. -/
def lookupAttr (attrs : List (String × String)) (k : String) : Option String :=
  (attrs.find? (fun kv => kv.1 == k)).map (fun kv => kv.2)

/-- Buffer-width choice of lines 261-275: if the row has an 'fclass'
attribute use it, elif it has a 'type' attribute use it, else keep the
default width 5. -/
def wayBufferWidth (f : WaterWayFeature α) : α :=
  match lookupAttr f.attrs "fclass" with
  | some v => widthFromValue v
  | none =>
    match lookupAttr f.attrs "type" with
    | some v => widthFromValue v
    | none => 5

/-- Lines 277-280: only LineString/MultiLineString geometries contribute,
each the area of the line buffered by its chosen width. -/
def wayContribution (f : WaterWayFeature α) : α :=
  if f.geomType = "LineString" ∨ f.geomType = "MultiLineString" then
    f.bufferArea (wayBufferWidth f)
  else 0

/-- Water analysis, lines 222-295: total area = zone area sum + buffered
way area sum; percentage = total / hexagon area * 100 (0 when hexagon
area is not positive); both 0 on any exception in the block. -/
def waterResults (water : Except Unit (WaterData α)) (hexArea : α) :
    List (String × Value α) :=
  match water with
  | .ok wd =>
    [("water_percentage",
      Value.num (if 0 < hexArea then
        (wd.zoneAreas.sum + (wd.ways.map wayContribution).sum) / hexArea * 100
      else 0)),
     ("water_area_sq_m",
      Value.num (wd.zoneAreas.sum + (wd.ways.map wayContribution).sum))]
  | .error _ =>
    [("water_percentage", Value.num 0), ("water_area_sq_m", Value.num 0)]

/- ## Land use classification, lines 297-367 -/

/-- The candidate classification columns of line 316, in priority order. -/
def typeColumnCandidates : List String :=
  ["fclass", "type", "landuse", "TYPE", "LANDUSE", "class", "CLASS"]

/-- Lines 315-319: the first candidate column present in the intersected
GeoDataFrame's columns. -/
def findTypeColumn (cols : List String) : Option String :=
  typeColumnCandidates.find? (fun c => cols.contains c)

/-- The value of the chosen classification column in one row (every row
of a GeoDataFrame carries every column, so the default is never hit on
well-formed data). -/
def rowValue (col : String) (row : LanduseRow α) : String :=
  (lookupAttr row.attrs col).getD ""

/-- The distinct group keys in first-occurrence order. -/
def distinctKeys (col : String) (rows : List (LanduseRow α)) : List String :=
  rows.foldl
    (fun acc r => if acc.contains (rowValue col r) then acc else acc ++ [rowValue col r])
    []

/-- Boolean string order used to model pandas' sorted group index. -/
def strLe (a b : String) : Bool := !(strLtB b a)

/-- Insert a key into a sorted key list. -/
def insertSortedKey : String → List String → List String
  | k, [] => [k]
  | k, x :: xs => if strLe k x then k :: x :: xs else x :: insertSortedKey k xs

/-- Sort group keys ascending, as pandas groupby does. -/
def sortKeys (ks : List String) : List String :=
  ks.foldr insertSortedKey []

/-- Summed intersected area of the rows with the given group key. -/
def groupSum (col : String) (rows : List (LanduseRow α)) (k : String) : α :=
  ((rows.filter (fun r => rowValue col r == k)).map (fun r => r.area)).sum

/-- Line 322: groupby(type_column)['area'].sum() -- the series of
(group key, summed area), keys sorted ascending. -/
def landuseAreas (col : String) (rows : List (LanduseRow α)) : List (String × α) :=
  (sortKeys (distinctKeys col rows)).map (fun k => (k, groupSum col rows k))

/-- Series.idxmax paired with its value: the first entry holding the
maximal value. `none` only on an empty series. -/
def seriesIdxmax : List (String × α) → Option (String × α)
  | [] => none
  | p :: rest =>
    match seriesIdxmax rest with
    | none => some p
    | some q => if p.2 < q.2 then some q else some p

/-- Python dict assignment d[k] = v: overwrite in place or append. -/
def dictInsert : List (String × α) → String → α → List (String × α)
  | [], k, v => [(k, v)]
  | kv :: rest, k, v =>
    if kv.1 == k then (k, v) :: rest else kv :: dictInsert rest k v

/-- Lines 335-338: the breakdown dict mapping lower-cased category name
to summed area, built over the series in order. -/
def breakdownOf (areas : List (String × α)) : List (String × α) :=
  areas.foldl (fun m kv => dictInsert m (pyLower kv.1) kv.2) []

/-- The placeholder land-use entries of the no-data and error branches. -/
def landusePlaceholder (α : Type) [LinearOrderedField α] (s : String) :
    List (String × Value α) :=
  [("dominant_landuse", Value.str s),
   ("dominant_landuse_percentage", Value.num 0),
   ("landuse_breakdown", Value.dict [])]

/-- Land-use analysis, lines 297-367. -/
def landuseResults (landuse : Option ((α × α) → Except Unit (LanduseData α)))
    (hex : α × α) : List (String × Value α) :=
  match landuse with
  | some layer =>
    match layer hex with
    | .ok data =>
      if 0 < data.rows.length then
        match findTypeColumn data.columns with
        | some col =>
          match seriesIdxmax (landuseAreas col data.rows) with
          | some dom =>
            [("dominant_landuse", Value.str dom.1),
             ("dominant_landuse_percentage",
              Value.num (dom.2 / ((landuseAreas col data.rows).map (fun kv => kv.2)).sum * 100)),
             ("landuse_breakdown", Value.dict (breakdownOf (landuseAreas col data.rows)))]
          | none => landusePlaceholder α "No data"
        | none => landusePlaceholder α "No data"
      else landusePlaceholder α "No data"
    | .error _ => landusePlaceholder α "Error"
  | none => landusePlaceholder α "No data"

/- ## The full analysis -/

/-- The hexagon center actually analyzed, lines 101-119: the requested
projected center, unless its hexagon's bounding box fails the simple
bounds check against the DEM bounds, in which case the DEM bounding-box
center is silently substituted and the analysis proceeds with it (no
second check). -/
def hexUsed (env : Env α) (dem : DemData α) : α × α :=
  if boundsDisjoint (env.hexBounds dem.center) dem.bounds then bboxCenter dem.bounds
  else dem.center

/-- The five metric sections and the final hexagon-area entry, lines
121-371, evaluated for the hexagon at the given center, in the order the
code fills the results dict. -/
def metricsAt (env : Env α) (dem : DemData α) (hex : α × α) :
    List (String × Value α) :=
  elevationResults dem hex ++
  (roadsResults env.roads hex ++
  (buildingsResults env.buildings (env.hexArea hex) hex ++
  (waterResults (env.water hex) (env.hexArea hex) ++
  (landuseResults env.landuse hex ++
  [("hexagon_area_sq_km", Value.num (env.hexArea hex / 1000000))]))))

/-- analyze_hexagon, lines 71-373: when the outer try fails before the
elevation section (rasterio.open, transform, hexagon construction), the
except of lines 155-157 returns the results accumulated so far -- the
empty dict; otherwise the five metrics and the hexagon area are computed
for the hexagon the bounds-check fallback selected. -/
def analyze_hexagon (env : Env α) : List (String × Value α) :=
  match env.demOpen with
  | .error _ => []
  | .ok dem => metricsAt env dem (hexUsed env dem)

/- ## get_hexagon_geojson, lines 375-406 -/

/-- The external world of one get_hexagon_geojson call: opening the
raster, transforming the requested center to projected coordinates, and
reprojecting the built hexagon back to WGS84 as the GeoJSON coordinate
ring; each step may raise. -/
structure GeoEnv (α : Type) where
  demOpen : Except Unit Unit
  transform : Except Unit (α × α)
  toWgs84 : (α × α) → Except Unit (List (α × α))

/-- get_hexagon_geojson: the whole body sits inside one try; any raised
exception reaches the except of lines 404-406, which returns None. -/
def get_hexagon_geojson (env : GeoEnv α) : Option (List (α × α)) :=
  match env.demOpen with
  | .error _ => none
  | .ok _ =>
    match env.transform with
    | .error _ => none
    | .ok c =>
      match env.toWgs84 c with
      | .error _ => none
      | .ok g => some g

/- ## The hexagon builder, lines 12-29, over the real numbers -/

/-- Vertex i of the loop of lines 18-24: angle (60 i - 30) degrees from
the center at distance radius_m. -/
noncomputable def hexVertex (center_x center_y radius_m : ℝ) (i : ℕ) : ℝ × ℝ :=
  (center_x + radius_m * Real.cos ((60 * (i : ℝ) - 30) * Real.pi / 180),
   center_y + radius_m * Real.sin ((60 * (i : ℝ) - 30) * Real.pi / 180))

/-- create_hexagon_projected: the six loop vertices, then the first
vertex again to close the ring (line 27). The crs parameter of the source
plays no part in the geometry and is omitted. -/
noncomputable def create_hexagon_projected (center_x center_y radius_m : ℝ) :
    List (ℝ × ℝ) :=
  (List.range 6).map (hexVertex center_x center_y radius_m) ++
    [hexVertex center_x center_y radius_m 0]

/-- Twice the signed area of a closed coordinate ring (the shoelace sum
a planar geometry library computes the polygon area from). -/
def shoelaceSum : List (α × α) → α
  | p :: q :: rest => (p.1 * q.2 - q.1 * p.2) + shoelaceSum (q :: rest)
  | _ => 0

/-- Polygon area of a closed ring: half the absolute shoelace sum. -/
noncomputable def polygonArea (ring : List (ℝ × ℝ)) : ℝ :=
  |shoelaceSum ring| / 2

/- ## The promised result keys, in the order the code fills the dict -/

def promisedKeys : List String :=
  ["elevation_min", "elevation_mean", "elevation_max", "total_road_length_m",
   "building_density", "total_building_area_sq_m", "water_percentage",
   "water_area_sq_m", "dominant_landuse", "dominant_landuse_percentage",
   "landuse_breakdown", "hexagon_area_sq_km"]

/-- Replacing the three startup-loaded layers of an environment. -/
def setLayers (env : Env α) (r b : Option ((α × α) → Except Unit (List α)))
    (l : Option ((α × α) → Except Unit (LanduseData α))) : Env α :=
  ⟨env.demOpen, env.hexBounds, env.hexArea, r, b, env.water, l⟩

/- ## Lookup plumbing for the results dict -/

omit [LinearOrderedField α] in
theorem getVal_append (xs ys : List (String × Value α)) (k : String) :
    getVal (xs ++ ys) k = (getVal xs k).or (getVal ys k) := by
  unfold getVal
  rw [List.find?_append]
  cases xs.find? (fun kv => kv.1 == k) <;> simp

omit [LinearOrderedField α] in
theorem getVal_eq_none (xs : List (String × Value α)) (k : String)
    (h : k ∉ xs.map Prod.fst) : getVal xs k = none := by
  unfold getVal
  rw [List.find?_eq_none.mpr]
  · rfl
  · intro kv hkv
    simp only [beq_iff_eq]
    intro hEq
    exact h (hEq ▸ List.mem_map_of_mem Prod.fst hkv)

omit [LinearOrderedField α] in
theorem getVal_append_skip (xs ys : List (String × Value α)) (k : String)
    (h : k ∉ xs.map Prod.fst) : getVal (xs ++ ys) k = getVal ys k := by
  rw [getVal_append, getVal_eq_none xs k h, Option.none_or]

omit [LinearOrderedField α] in
theorem getVal_of_mem_keys (xs : List (String × Value α)) (k : String)
    (h : k ∈ xs.map Prod.fst) : ∃ v, getVal xs k = some v := by
  induction xs with
  | nil => simp at h
  | cons x xs ih =>
    by_cases hx : x.1 = k
    · exact ⟨x.2, by simp [getVal, List.find?_cons, hx]⟩
    · have : k ∈ xs.map Prod.fst := by
        rcases List.mem_cons.mp h with h1 | h2
        · exact absurd h1.symm hx
        · exact h2
      obtain ⟨v, hv⟩ := ih this
      refine ⟨v, ?_⟩
      unfold getVal at hv ⊢
      rw [List.find?_cons_of_neg]
      · exact hv
      · simp [hx]

omit [LinearOrderedField α] in
theorem getVal_append_mem (xs ys : List (String × Value α)) (k : String)
    (h : k ∈ xs.map Prod.fst) : getVal (xs ++ ys) k = getVal xs k := by
  obtain ⟨v, hv⟩ := getVal_of_mem_keys xs k h
  rw [getVal_append, hv]
  rfl

/- ## Key lists of each metric section -/

theorem elevationResults_keys (dem : DemData α) (hex : α × α) :
    (elevationResults dem hex).map Prod.fst =
      ["elevation_min", "elevation_mean", "elevation_max"] := by
  unfold elevationResults
  cases h : dem.elev hex with
  | ok vals => by_cases hl : 0 < vals.length <;> simp [hl]
  | error e => rfl

theorem roadsResults_keys (roads : Option ((α × α) → Except Unit (List α)))
    (hex : α × α) :
    (roadsResults roads hex).map Prod.fst = ["total_road_length_m"] := by
  unfold roadsResults
  cases roads with
  | none => rfl
  | some layer =>
    cases h : layer hex with
    | ok segs => by_cases hl : 0 < segs.length <;> simp [h, hl]
    | error e => simp [h]

theorem buildingsResults_keys (buildings : Option ((α × α) → Except Unit (List α)))
    (a : α) (hex : α × α) :
    (buildingsResults buildings a hex).map Prod.fst =
      ["building_density", "total_building_area_sq_m"] := by
  unfold buildingsResults
  cases buildings with
  | none => rfl
  | some layer =>
    cases h : layer hex with
    | ok areas => by_cases hl : 0 < areas.length <;> simp [h, hl]
    | error e => simp [h]

theorem waterResults_keys (water : Except Unit (WaterData α)) (a : α) :
    (waterResults water a).map Prod.fst = ["water_percentage", "water_area_sq_m"] := by
  unfold waterResults
  cases water <;> rfl

theorem landuseResults_keys
    (landuse : Option ((α × α) → Except Unit (LanduseData α))) (hex : α × α) :
    (landuseResults landuse hex).map Prod.fst =
      ["dominant_landuse", "dominant_landuse_percentage", "landuse_breakdown"] := by
  unfold landuseResults landusePlaceholder
  cases landuse with
  | none => rfl
  | some layer =>
    cases h : layer hex with
    | error e => simp [h]
    | ok data =>
      by_cases hl : 0 < data.rows.length
      · cases hc : findTypeColumn data.columns with
        | none => simp [h, hl, hc]
        | some col =>
          cases hm : seriesIdxmax (landuseAreas col data.rows) with
          | none => simp [h, hl, hc, hm]
          | some dom => simp [h, hl, hc, hm]
      · simp [h, hl]

theorem metricsAt_keys (env : Env α) (dem : DemData α) (hex : α × α) :
    (metricsAt env dem hex).map Prod.fst = promisedKeys := by
  unfold metricsAt promisedKeys
  rw [List.map_append, List.map_append, List.map_append, List.map_append,
    List.map_append, elevationResults_keys, roadsResults_keys,
    buildingsResults_keys, waterResults_keys, landuseResults_keys]
  rfl

/- ## Geometry of the built hexagon -/

theorem create_hexagon_eq (cx cy r : ℝ) :
    create_hexagon_projected cx cy r =
      [hexVertex cx cy r 0, hexVertex cx cy r 1, hexVertex cx cy r 2,
       hexVertex cx cy r 3, hexVertex cx cy r 4, hexVertex cx cy r 5,
       hexVertex cx cy r 0] := by
  rfl

theorem hexVertex_0 (cx cy r : ℝ) :
    hexVertex cx cy r 0 = (cx + r * (Real.sqrt 3 / 2), cy + r * -(1 / 2)) := by
  unfold hexVertex
  have ha : (60 * ((0 : ℕ) : ℝ) - 30) * Real.pi / 180 = -(Real.pi / 6) := by
    push_cast
    ring
  rw [ha, Real.cos_neg, Real.sin_neg, Real.cos_pi_div_six, Real.sin_pi_div_six]

theorem hexVertex_1 (cx cy r : ℝ) :
    hexVertex cx cy r 1 = (cx + r * (Real.sqrt 3 / 2), cy + r * (1 / 2)) := by
  unfold hexVertex
  have ha : (60 * ((1 : ℕ) : ℝ) - 30) * Real.pi / 180 = Real.pi / 6 := by
    push_cast
    ring
  rw [ha, Real.cos_pi_div_six, Real.sin_pi_div_six]

theorem hexVertex_2 (cx cy r : ℝ) :
    hexVertex cx cy r 2 = (cx + r * 0, cy + r * 1) := by
  unfold hexVertex
  have ha : (60 * ((2 : ℕ) : ℝ) - 30) * Real.pi / 180 = Real.pi / 2 := by
    push_cast
    ring
  rw [ha, Real.cos_pi_div_two, Real.sin_pi_div_two]

theorem hexVertex_3 (cx cy r : ℝ) :
    hexVertex cx cy r 3 = (cx + r * -(Real.sqrt 3 / 2), cy + r * (1 / 2)) := by
  unfold hexVertex
  have ha : (60 * ((3 : ℕ) : ℝ) - 30) * Real.pi / 180 = Real.pi - Real.pi / 6 := by
    push_cast
    ring
  rw [ha, Real.cos_pi_sub, Real.sin_pi_sub, Real.cos_pi_div_six, Real.sin_pi_div_six]

theorem hexVertex_4 (cx cy r : ℝ) :
    hexVertex cx cy r 4 = (cx + r * -(Real.sqrt 3 / 2), cy + r * -(1 / 2)) := by
  unfold hexVertex
  have ha : (60 * ((4 : ℕ) : ℝ) - 30) * Real.pi / 180 = Real.pi / 6 + Real.pi := by
    push_cast
    ring
  rw [ha, Real.cos_add_pi, Real.sin_add_pi, Real.cos_pi_div_six, Real.sin_pi_div_six]

theorem hexVertex_5 (cx cy r : ℝ) :
    hexVertex cx cy r 5 = (cx + r * -0, cy + r * -1) := by
  unfold hexVertex
  have ha : (60 * ((5 : ℕ) : ℝ) - 30) * Real.pi / 180 = Real.pi / 2 + Real.pi := by
    push_cast
    ring
  rw [ha, Real.cos_add_pi, Real.sin_add_pi, Real.cos_pi_div_two, Real.sin_pi_div_two]

theorem shoelace_hexagon (cx cy r : ℝ) :
    shoelaceSum (create_hexagon_projected cx cy r) = 3 * Real.sqrt 3 * r ^ 2 := by
  rw [create_hexagon_eq]
  simp only [shoelaceSum, hexVertex_0, hexVertex_1, hexVertex_2, hexVertex_3,
    hexVertex_4, hexVertex_5]
  ring

theorem polygonArea_hexagon (cx cy r : ℝ) :
    polygonArea (create_hexagon_projected cx cy r) = 3 * Real.sqrt 3 / 2 * r ^ 2 := by
  unfold polygonArea
  rw [shoelace_hexagon, abs_of_nonneg (by positivity)]
  ring

theorem hexVertex_dist (cx cy r : ℝ) (h : 0 ≤ r) (i : ℕ) :
    Real.sqrt (((hexVertex cx cy r i).1 - cx) ^ 2 + ((hexVertex cx cy r i).2 - cy) ^ 2)
      = r := by
  have hc := Real.cos_sq_add_sin_sq ((60 * (i : ℝ) - 30) * Real.pi / 180)
  unfold hexVertex
  dsimp only
  have hsq :
      (cx + r * Real.cos ((60 * (i : ℝ) - 30) * Real.pi / 180) - cx) ^ 2 +
        (cy + r * Real.sin ((60 * (i : ℝ) - 30) * Real.pi / 180) - cy) ^ 2 = r ^ 2 := by
    linear_combination r ^ 2 * hc
  rw [hsq, Real.sqrt_sq h]

/- ## Per-key lookups into the assembled results -/

theorem getVal_metricsAt_area (env : Env α) (dem : DemData α) (hex : α × α) :
    getVal (metricsAt env dem hex) "hexagon_area_sq_km" =
      some (Value.num (env.hexArea hex / 1000000)) := by
  unfold metricsAt
  rw [getVal_append_skip _ _ _ (by rw [elevationResults_keys]; decide)]
  rw [getVal_append_skip _ _ _ (by rw [roadsResults_keys]; decide)]
  rw [getVal_append_skip _ _ _ (by rw [buildingsResults_keys]; decide)]
  rw [getVal_append_skip _ _ _ (by rw [waterResults_keys]; decide)]
  rw [getVal_append_skip _ _ _ (by rw [landuseResults_keys]; decide)]
  rfl

theorem getVal_metricsAt_roads (env : Env α) (dem : DemData α) (hex : α × α) :
    getVal (metricsAt env dem hex) "total_road_length_m" =
      getVal (roadsResults env.roads hex) "total_road_length_m" := by
  unfold metricsAt
  rw [getVal_append_skip _ _ _ (by rw [elevationResults_keys]; decide)]
  rw [getVal_append_mem _ _ _ (by rw [roadsResults_keys]; decide)]

theorem getVal_metricsAt_density (env : Env α) (dem : DemData α) (hex : α × α) :
    getVal (metricsAt env dem hex) "building_density" =
      getVal (buildingsResults env.buildings (env.hexArea hex) hex) "building_density" := by
  unfold metricsAt
  rw [getVal_append_skip _ _ _ (by rw [elevationResults_keys]; decide)]
  rw [getVal_append_skip _ _ _ (by rw [roadsResults_keys]; decide)]
  rw [getVal_append_mem _ _ _ (by rw [buildingsResults_keys]; decide)]

theorem getVal_metricsAt_barea (env : Env α) (dem : DemData α) (hex : α × α) :
    getVal (metricsAt env dem hex) "total_building_area_sq_m" =
      getVal (buildingsResults env.buildings (env.hexArea hex) hex) "total_building_area_sq_m" := by
  unfold metricsAt
  rw [getVal_append_skip _ _ _ (by rw [elevationResults_keys]; decide)]
  rw [getVal_append_skip _ _ _ (by rw [roadsResults_keys]; decide)]
  rw [getVal_append_mem _ _ _ (by rw [buildingsResults_keys]; decide)]

theorem getVal_metricsAt_wpct (env : Env α) (dem : DemData α) (hex : α × α) :
    getVal (metricsAt env dem hex) "water_percentage" =
      getVal (waterResults (env.water hex) (env.hexArea hex)) "water_percentage" := by
  unfold metricsAt
  rw [getVal_append_skip _ _ _ (by rw [elevationResults_keys]; decide)]
  rw [getVal_append_skip _ _ _ (by rw [roadsResults_keys]; decide)]
  rw [getVal_append_skip _ _ _ (by rw [buildingsResults_keys]; decide)]
  rw [getVal_append_mem _ _ _ (by rw [waterResults_keys]; decide)]

theorem getVal_metricsAt_warea (env : Env α) (dem : DemData α) (hex : α × α) :
    getVal (metricsAt env dem hex) "water_area_sq_m" =
      getVal (waterResults (env.water hex) (env.hexArea hex)) "water_area_sq_m" := by
  unfold metricsAt
  rw [getVal_append_skip _ _ _ (by rw [elevationResults_keys]; decide)]
  rw [getVal_append_skip _ _ _ (by rw [roadsResults_keys]; decide)]
  rw [getVal_append_skip _ _ _ (by rw [buildingsResults_keys]; decide)]
  rw [getVal_append_mem _ _ _ (by rw [waterResults_keys]; decide)]

theorem getVal_metricsAt_dom (env : Env α) (dem : DemData α) (hex : α × α) :
    getVal (metricsAt env dem hex) "dominant_landuse" =
      getVal (landuseResults env.landuse hex) "dominant_landuse" := by
  unfold metricsAt
  rw [getVal_append_skip _ _ _ (by rw [elevationResults_keys]; decide)]
  rw [getVal_append_skip _ _ _ (by rw [roadsResults_keys]; decide)]
  rw [getVal_append_skip _ _ _ (by rw [buildingsResults_keys]; decide)]
  rw [getVal_append_skip _ _ _ (by rw [waterResults_keys]; decide)]
  rw [getVal_append_mem _ _ _ (by rw [landuseResults_keys]; decide)]

theorem getVal_metricsAt_dompct (env : Env α) (dem : DemData α) (hex : α × α) :
    getVal (metricsAt env dem hex) "dominant_landuse_percentage" =
      getVal (landuseResults env.landuse hex) "dominant_landuse_percentage" := by
  unfold metricsAt
  rw [getVal_append_skip _ _ _ (by rw [elevationResults_keys]; decide)]
  rw [getVal_append_skip _ _ _ (by rw [roadsResults_keys]; decide)]
  rw [getVal_append_skip _ _ _ (by rw [buildingsResults_keys]; decide)]
  rw [getVal_append_skip _ _ _ (by rw [waterResults_keys]; decide)]
  rw [getVal_append_mem _ _ _ (by rw [landuseResults_keys]; decide)]

theorem getVal_metricsAt_breakdown (env : Env α) (dem : DemData α) (hex : α × α) :
    getVal (metricsAt env dem hex) "landuse_breakdown" =
      getVal (landuseResults env.landuse hex) "landuse_breakdown" := by
  unfold metricsAt
  rw [getVal_append_skip _ _ _ (by rw [elevationResults_keys]; decide)]
  rw [getVal_append_skip _ _ _ (by rw [roadsResults_keys]; decide)]
  rw [getVal_append_skip _ _ _ (by rw [buildingsResults_keys]; decide)]
  rw [getVal_append_skip _ _ _ (by rw [waterResults_keys]; decide)]
  rw [getVal_append_mem _ _ _ (by rw [landuseResults_keys]; decide)]


/- ## Metric values in the failure branches -/

theorem roadsResults_none (hex : α × α) :
    roadsResults none hex = [("total_road_length_m", Value.num (0 : α))] := rfl

theorem roadsResults_error (layer : (α × α) → Except Unit (List α)) (hex : α × α)
    (e : Unit) (h : layer hex = .error e) :
    roadsResults (some layer) hex = [("total_road_length_m", Value.num 0)] := by
  unfold roadsResults
  simp [h]

theorem buildingsResults_none (a : α) (hex : α × α) :
    buildingsResults none a hex =
      [("building_density", Value.num (0 : α)),
       ("total_building_area_sq_m", Value.num 0)] := rfl

theorem buildingsResults_error (layer : (α × α) → Except Unit (List α)) (a : α)
    (hex : α × α) (e : Unit) (h : layer hex = .error e) :
    buildingsResults (some layer) a hex =
      [("building_density", Value.num 0),
       ("total_building_area_sq_m", Value.num 0)] := by
  unfold buildingsResults
  simp [h]

theorem waterResults_error (a : α) (e : Unit) :
    waterResults (.error e) a =
      [("water_percentage", Value.num (0 : α)), ("water_area_sq_m", Value.num 0)] := rfl

theorem landuseResults_none (hex : α × α) :
    landuseResults none hex = landusePlaceholder α "No data" := rfl

theorem landuseResults_error (layer : (α × α) → Except Unit (LanduseData α))
    (hex : α × α) (e : Unit) (h : layer hex = .error e) :
    landuseResults (some layer) hex = landusePlaceholder α "Error" := by
  unfold landuseResults
  simp [h]

theorem landuseResults_noRows (layer : (α × α) → Except Unit (LanduseData α))
    (hex : α × α) (data : LanduseData α) (h : layer hex = .ok data)
    (hr : data.rows = []) :
    landuseResults (some layer) hex = landusePlaceholder α "No data" := by
  unfold landuseResults
  simp [h, hr]

theorem landuseResults_noColumn (layer : (α × α) → Except Unit (LanduseData α))
    (hex : α × α) (data : LanduseData α) (h : layer hex = .ok data)
    (hc : findTypeColumn data.columns = none) :
    landuseResults (some layer) hex = landusePlaceholder α "No data" := by
  unfold landuseResults
  by_cases hr : 0 < data.rows.length <;> simp [h, hr, hc]

/- ## Series idxmax: first entry carrying the maximal value -/

theorem seriesIdxmax_ne_none (x : String × α) (l : List (String × α)) :
    seriesIdxmax (x :: l) ≠ none := by
  unfold seriesIdxmax
  cases seriesIdxmax l with
  | none => simp
  | some q => by_cases h : x.2 < q.2 <;> simp [h]

theorem seriesIdxmax_mem (l : List (String × α)) (p : String × α)
    (h : seriesIdxmax l = some p) : p ∈ l := by
  revert h
  induction l generalizing p with
  | nil => intro h; simp [seriesIdxmax] at h
  | cons q rest ih =>
    intro h
    unfold seriesIdxmax at h
    cases hm : seriesIdxmax rest with
    | none => rw [hm] at h; simp at h; simp [h]
    | some m =>
      rw [hm] at h
      by_cases hlt : q.2 < m.2
      · simp [hlt] at h
        exact List.mem_cons_of_mem q (ih p (h ▸ hm))
      · simp [hlt] at h
        simp [h]

theorem seriesIdxmax_ge (l : List (String × α)) (p : String × α)
    (h : seriesIdxmax l = some p) : ∀ q ∈ l, q.2 ≤ p.2 := by
  revert h
  induction l generalizing p with
  | nil => intro h; simp [seriesIdxmax] at h
  | cons x rest ih =>
    intro h
    unfold seriesIdxmax at h
    cases hm : seriesIdxmax rest with
    | none =>
      cases rest with
      | nil =>
        rw [hm] at h
        simp at h
        intro q hq
        simp at hq
        rw [hq, h]
      | cons y ys => exact absurd hm (seriesIdxmax_ne_none y ys)
    | some m =>
      rw [hm] at h
      by_cases hlt : x.2 < m.2
      · simp [hlt] at h
        subst h
        intro q hq
        rcases List.mem_cons.mp hq with h1 | h2
        · exact h1 ▸ le_of_lt hlt
        · exact ih m hm q h2
      · simp [hlt] at h
        subst h
        intro q hq
        rcases List.mem_cons.mp hq with h1 | h2
        · exact le_of_eq (congrArg Prod.snd h1)
        · exact le_trans (ih m hm q h2) (le_of_not_lt hlt)

/- ## Breakdown dict lookups -/

/-- Lookup in a plain string-to-number dict. -/
def dictLookup (m : List (String × α)) (k : String) : Option α :=
  (m.find? (fun kv => kv.1 == k)).map (fun kv => kv.2)

theorem dictLookup_dictInsert_self (m : List (String × α)) (k : String) (v : α) :
    dictLookup (dictInsert m k v) k = some v := by
  induction m with
  | nil => simp [dictInsert, dictLookup]
  | cons kv rest ih =>
    unfold dictInsert
    by_cases h : kv.1 = k
    · simp [h, dictLookup]
    · simp only [beq_iff_eq, h, if_false]
      unfold dictLookup at ih ⊢
      rw [List.find?_cons_of_neg]
      · exact ih
      · simp [h]

theorem dictLookup_dictInsert_other (m : List (String × α)) (k : String) (v : α)
    (k' : String) (h : k' ≠ k) :
    dictLookup (dictInsert m k v) k' = dictLookup m k' := by
  induction m with
  | nil =>
    unfold dictInsert dictLookup
    rw [List.find?_cons_of_neg]
    simp only [beq_iff_eq]
    exact Ne.symm h
  | cons kv rest ih =>
    unfold dictInsert
    by_cases hk : kv.1 = k
    · simp only [beq_iff_eq, hk, if_true]
      unfold dictLookup
      rw [List.find?_cons_of_neg, List.find?_cons_of_neg]
      · simp only [beq_iff_eq, hk]
        exact Ne.symm h
      · simp only [beq_iff_eq]
        exact Ne.symm h
    · simp only [beq_iff_eq, hk, if_false]
      unfold dictLookup at ih ⊢
      by_cases hk' : kv.1 = k'
      · rw [List.find?_cons_of_pos, List.find?_cons_of_pos] <;> simp [hk']
      · rw [List.find?_cons_of_neg, List.find?_cons_of_neg]
        · exact ih
        · simp [hk']
        · simp [hk']

/-- One foldl step of line 337. -/
def breakdownStep (m : List (String × α)) (kv : String × α) : List (String × α) :=
  dictInsert m (pyLower kv.1) kv.2

theorem dictLookup_foldl_untouched (areas : List (String × α))
    (m : List (String × α)) (k : String)
    (h : ∀ kv ∈ areas, pyLower kv.1 ≠ k) :
    dictLookup (areas.foldl breakdownStep m) k = dictLookup m k := by
  induction areas generalizing m with
  | nil => rfl
  | cons kv rest ih =>
    rw [List.foldl_cons]
    rw [ih (breakdownStep m kv) (fun x hx => h x (List.mem_cons_of_mem kv hx))]
    exact dictLookup_dictInsert_other m (pyLower kv.1) kv.2 k
      (fun he => h kv (List.mem_cons_self kv rest) he.symm)

theorem breakdown_lookup_aux (areas : List (String × α)) (m : List (String × α))
    (hnd : (areas.map (fun kv => pyLower kv.1)).Nodup) :
    ∀ p ∈ areas, dictLookup (areas.foldl breakdownStep m) (pyLower p.1) = some p.2 := by
  induction areas generalizing m with
  | nil => simp
  | cons kv rest ih =>
    rw [List.map_cons, List.nodup_cons] at hnd
    intro p hp
    rcases List.mem_cons.mp hp with h1 | h2
    · subst h1
      rw [List.foldl_cons]
      rw [dictLookup_foldl_untouched rest (breakdownStep m p) (pyLower p.1)]
      · exact dictLookup_dictInsert_self m (pyLower p.1) p.2
      · intro x hx he
        exact hnd.1 (he ▸ List.mem_map_of_mem (fun kv => pyLower kv.1) hx)
    · rw [List.foldl_cons]
      exact ih (breakdownStep m kv) hnd.2 p h2

theorem breakdown_lookup (areas : List (String × α))
    (hnd : (areas.map (fun kv => pyLower kv.1)).Nodup) :
    ∀ p ∈ areas, dictLookup (breakdownOf areas) (pyLower p.1) = some p.2 := by
  unfold breakdownOf
  exact breakdown_lookup_aux areas [] hnd

/- ## The buffer-width rule as the spec states it -/

/-- The four classification keys and widths named by the spec, in order:
river 20, stream 5, canal 10, drain 2. -/
def claimBufferKeys (α : Type) [LinearOrderedField α] : List (String × α) :=
  [("river", 20), ("stream", 5), ("canal", 10), ("drain", 2)]

/-- The spec's width rule for one attribute value: the first of the four
keys found as a substring of the lower-cased value wins; default 5. -/
def claimWidthFromValue (v : String) : α :=
  match (claimBufferKeys α).find? (fun kv => strContains (pyLower v) kv.1) with
  | some kv => kv.2
  | none => 5

/-- The spec's width rule for one feature row: check fclass, then type,
then fall back to 5. -/
def claimWayWidth (attrs : List (String × String)) : α :=
  match lookupAttr attrs "fclass" with
  | some v => claimWidthFromValue v
  | none =>
    match lookupAttr attrs "type" with
    | some v => claimWidthFromValue v
    | none => 5

/-- The spec's per-feature water contribution: line features contribute
the area of the line buffered by the chosen width. -/
def claimWayContribution (f : WaterWayFeature α) : α :=
  if f.geomType = "LineString" ∨ f.geomType = "MultiLineString" then
    f.bufferArea (claimWayWidth f.attrs)
  else 0

/-- The code's width table (which also carries a "default" entry the spec
leaves implicit) computes exactly the spec's rule. -/
theorem widthFromValue_eq_claim (v : String) :
    (widthFromValue v : α) = claimWidthFromValue v := by
  unfold widthFromValue claimWidthFromValue buffer_widths claimBufferKeys
  by_cases h1 : strContains (pyLower v) "river" <;>
  by_cases h2 : strContains (pyLower v) "stream" <;>
  by_cases h3 : strContains (pyLower v) "canal" <;>
  by_cases h4 : strContains (pyLower v) "drain" <;>
  by_cases h5 : strContains (pyLower v) "default" <;>
  simp [List.find?, h1, h2, h3, h4, h5]

theorem wayBufferWidth_eq_claim (f : WaterWayFeature α) :
    wayBufferWidth f = claimWayWidth f.attrs := by
  unfold wayBufferWidth claimWayWidth
  cases lookupAttr f.attrs "fclass" with
  | some v => exact widthFromValue_eq_claim v
  | none =>
    cases lookupAttr f.attrs "type" with
    | some v => exact widthFromValue_eq_claim v
    | none => rfl

theorem wayContribution_eq_claim (f : WaterWayFeature α) :
    wayContribution f = claimWayContribution f := by
  unfold wayContribution claimWayContribution
  rw [wayBufferWidth_eq_claim]

/- ## Shared reduction of a successful open -/

theorem analyze_hexagon_ok (env : Env α) (dem : DemData α)
    (hok : env.demOpen = .ok dem) :
    analyze_hexagon env = metricsAt env dem (hexUsed env dem) := by
  unfold analyze_hexagon
  rw [hok]

/- ## Concrete environments used as witnesses and counterexamples -/

/-- An environment whose raster cannot be opened. -/
def envDemFail : Env ℚ :=
  ⟨.error (), fun _ => ⟨0, 0, 0, 0⟩, fun _ => 0, none, none, fun _ => .error (), none⟩

/-- A successfully opened DEM with bounds 0..10 and projected center (5,5),
whose masking raises. -/
def demBase : DemData ℚ := ⟨⟨0, 0, 10, 10⟩, (5, 5), fun _ => .error ()⟩

/-- A minimal environment where the raster opens and every layer is absent
or failing. -/
def envDemOkTrivial : Env ℚ :=
  ⟨.ok demBase, fun c => ⟨c.1, c.2, c.1, c.2⟩, fun _ => 0, none, none,
   fun _ => .error (), none⟩

/- ## Claim C1 -/

/-- C1, counterexample: with the raster unopenable, analyze_hexagon does
not surface a hard error; it returns the ordinary empty mapping, which
contains none of the promised ResultMap keys (shown here for
elevation_min and hexagon_area_sq_km). -/
theorem demOpen_failure_counterexample :
    analyze_hexagon envDemFail = [] ∧
    getVal (analyze_hexagon envDemFail) "elevation_min" = none ∧
    getVal (analyze_hexagon envDemFail) "hexagon_area_sq_km" = none :=
  ⟨rfl, rfl, rfl⟩

/-- C1, amended: if the raster dataset cannot be opened, analyze_hexagon
catches the exception and returns the partial results accumulated so far,
namely the empty mapping, which contains none of the promised keys;
whenever the raster opens successfully, the returned mapping carries
exactly the promised ResultMap keys, in order. -/
theorem analyze_hexagon_keys_spec (env : Env α) :
    (∀ e, env.demOpen = .error e → analyze_hexagon env = []) ∧
    (∀ dem, env.demOpen = .ok dem →
      (analyze_hexagon env).map Prod.fst = promisedKeys) := by
  constructor
  · intro e he
    unfold analyze_hexagon
    rw [he]
  · intro dem hd
    rw [analyze_hexagon_ok env dem hd]
    exact metricsAt_keys env dem (hexUsed env dem)

/-- Witness for C1 at two concrete environments. -/
theorem analyze_hexagon_keys_spec_witness :
    analyze_hexagon envDemFail = [] ∧
    (analyze_hexagon envDemOkTrivial).map Prod.fst = promisedKeys :=
  ⟨(analyze_hexagon_keys_spec envDemFail).1 () rfl,
   (analyze_hexagon_keys_spec envDemOkTrivial).2 demBase rfl⟩

/- ## Claims C2 and C10 -/

/-- A DEM far away from the requested center (100, 100): the hexagon's
bounds around (100, 100) are disjoint from the DEM bounds 0..10. -/
def demFarData : DemData ℚ := ⟨⟨0, 0, 10, 10⟩, (100, 100), fun _ => .error ()⟩

/-- An environment triggering the non-overlap fallback: every hexagon
bound it reports lies beyond the DEM's right edge. -/
def envFar : Env ℚ :=
  ⟨.ok demFarData, fun _ => ⟨99, 99, 101, 101⟩, fun _ => 0,
   none, none, fun _ => .error (), none⟩

/-- C2: when the hexagon's bounding box fails the overlap check against
the raster's bounds, the hexagon is recentred on the raster bounding-box
center and the whole analysis is run once with that recentred hexagon (no
second check), and the returned mapping carries only the standard keys --
nothing informs the caller of the substitution. -/
theorem nonoverlap_recentre_spec (env : Env α) (dem : DemData α)
    (hok : env.demOpen = .ok dem)
    (hdisj : boundsDisjoint (env.hexBounds dem.center) dem.bounds = true) :
    hexUsed env dem = bboxCenter dem.bounds ∧
    analyze_hexagon env = metricsAt env dem (bboxCenter dem.bounds) ∧
    (analyze_hexagon env).map Prod.fst = promisedKeys := by
  have hu : hexUsed env dem = bboxCenter dem.bounds := by
    unfold hexUsed
    simp [hdisj]
  refine ⟨hu, ?_, ?_⟩
  · rw [analyze_hexagon_ok env dem hok, hu]
  · rw [analyze_hexagon_ok env dem hok]
    exact metricsAt_keys env dem (hexUsed env dem)

/-- Witness for C2 at a concrete far-away environment. -/
theorem nonoverlap_recentre_spec_witness :
    (envFar.demOpen = .ok demFarData ∧
     boundsDisjoint (envFar.hexBounds demFarData.center) demFarData.bounds = true) ∧
    (hexUsed envFar demFarData = bboxCenter demFarData.bounds ∧
     analyze_hexagon envFar = metricsAt envFar demFarData (bboxCenter demFarData.bounds) ∧
     (analyze_hexagon envFar).map Prod.fst = promisedKeys) :=
  ⟨⟨rfl, by decide⟩, nonoverlap_recentre_spec envFar demFarData rfl (by decide)⟩

/-- C10: when the fallback fires, the recentred hexagon (at the DEM
bounding-box center) is the one handed to every subsequent computation --
elevation, roads, buildings, water, land use, and the hexagon-area entry
-- and the result's keys are exactly the standard ones: no field records
the substitution. -/
theorem recentre_all_metrics_spec (env : Env α) (dem : DemData α)
    (hok : env.demOpen = .ok dem)
    (hdisj : boundsDisjoint (env.hexBounds dem.center) dem.bounds = true) :
    analyze_hexagon env =
      elevationResults dem (bboxCenter dem.bounds) ++
      (roadsResults env.roads (bboxCenter dem.bounds) ++
      (buildingsResults env.buildings (env.hexArea (bboxCenter dem.bounds))
        (bboxCenter dem.bounds) ++
      (waterResults (env.water (bboxCenter dem.bounds))
        (env.hexArea (bboxCenter dem.bounds)) ++
      (landuseResults env.landuse (bboxCenter dem.bounds) ++
      [("hexagon_area_sq_km",
        Value.num (env.hexArea (bboxCenter dem.bounds) / 1000000))])))) ∧
    (analyze_hexagon env).map Prod.fst = promisedKeys := by
  have hu : hexUsed env dem = bboxCenter dem.bounds := by
    unfold hexUsed
    simp [hdisj]
  constructor
  · rw [analyze_hexagon_ok env dem hok, hu]
    rfl
  · rw [analyze_hexagon_ok env dem hok]
    exact metricsAt_keys env dem (hexUsed env dem)

/-- Witness for C10 at the same concrete far-away environment. -/
theorem recentre_all_metrics_spec_witness :
    analyze_hexagon envFar =
      elevationResults demFarData (bboxCenter demFarData.bounds) ++
      (roadsResults envFar.roads (bboxCenter demFarData.bounds) ++
      (buildingsResults envFar.buildings (envFar.hexArea (bboxCenter demFarData.bounds))
        (bboxCenter demFarData.bounds) ++
      (waterResults (envFar.water (bboxCenter demFarData.bounds))
        (envFar.hexArea (bboxCenter demFarData.bounds)) ++
      (landuseResults envFar.landuse (bboxCenter demFarData.bounds) ++
      [("hexagon_area_sq_km",
        Value.num (envFar.hexArea (bboxCenter demFarData.bounds) / 1000000))])))) ∧
    (analyze_hexagon envFar).map Prod.fst = promisedKeys :=
  recentre_all_metrics_spec envFar demFarData rfl (by decide)

/- ## Claim C3 -/

/-- Land-use layer failed to load at startup. -/
def envLuNone : Env ℚ :=
  ⟨.ok demBase, fun c => ⟨c.1, c.2, c.1, c.2⟩, fun _ => 0, none, none,
   fun _ => .error (), none⟩

/-- Land-use layer loaded, features intersect, but no classification
column is present. -/
def envLuNoColumn : Env ℚ :=
  ⟨.ok demBase, fun c => ⟨c.1, c.2, c.1, c.2⟩, fun _ => 0, none, none,
   fun _ => .error (), some (fun _ => .ok ⟨["geometry"], [⟨[("name", "x")], 1⟩]⟩)⟩

/-- Land-use layer loaded with a classification column, but no features
intersect the hexagon. -/
def envLuNoFeatures : Env ℚ :=
  ⟨.ok demBase, fun c => ⟨c.1, c.2, c.1, c.2⟩, fun _ => 0, none, none,
   fun _ => .error (), some (fun _ => .ok ⟨["fclass"], []⟩)⟩

/-- An exception inside the land-use metric. -/
def envLuError : Env ℚ :=
  ⟨.ok demBase, fun c => ⟨c.1, c.2, c.1, c.2⟩, fun _ => 0, none, none,
   fun _ => .error (), some (fun _ => .error ())⟩

/-- C3, counterexample: the three "No data" placeholder paths (layer
never loaded; no classification column; no intersecting features) produce
identical result mappings, so the caller cannot tell them apart from the
returned mapping, although the environments are in genuinely different
failure states. -/
theorem landuse_placeholders_indistinguishable :
    analyze_hexagon envLuNone = analyze_hexagon envLuNoColumn ∧
    analyze_hexagon envLuNone = analyze_hexagon envLuNoFeatures ∧
    getVal (analyze_hexagon envLuNone) "dominant_landuse" = some (Value.str "No data") ∧
    getVal (analyze_hexagon envLuNone) "dominant_landuse_percentage" = some (Value.num 0) ∧
    getVal (analyze_hexagon envLuNone) "landuse_breakdown" = some (Value.dict []) ∧
    envLuNone.landuse.isNone = true ∧
    envLuNoColumn.landuse.isSome = true ∧
    envLuNoFeatures.landuse.isSome = true :=
  ⟨rfl, rfl, rfl, rfl, rfl, rfl, rfl, rfl⟩

/-- C3, amended: the three placeholder outcomes (no classification column,
no intersecting features, layer failed to load) each yield dominant_landuse
"No data" with percentage 0 and empty breakdown, and an exception yields
"Error" with the same zeros; the three "No data" paths produce identical
mappings, so only the exception path is distinguishable from the returned
mapping. -/
theorem landuse_placeholder_paths_spec (env : Env α) (dem : DemData α)
    (hok : env.demOpen = .ok dem) :
    (env.landuse = none →
      getVal (analyze_hexagon env) "dominant_landuse" = some (Value.str "No data") ∧
      getVal (analyze_hexagon env) "dominant_landuse_percentage" = some (Value.num 0) ∧
      getVal (analyze_hexagon env) "landuse_breakdown" = some (Value.dict [])) ∧
    (∀ layer data, env.landuse = some layer →
      layer (hexUsed env dem) = .ok data → data.rows = [] →
      getVal (analyze_hexagon env) "dominant_landuse" = some (Value.str "No data") ∧
      getVal (analyze_hexagon env) "dominant_landuse_percentage" = some (Value.num 0) ∧
      getVal (analyze_hexagon env) "landuse_breakdown" = some (Value.dict [])) ∧
    (∀ layer data, env.landuse = some layer →
      layer (hexUsed env dem) = .ok data → findTypeColumn data.columns = none →
      getVal (analyze_hexagon env) "dominant_landuse" = some (Value.str "No data") ∧
      getVal (analyze_hexagon env) "dominant_landuse_percentage" = some (Value.num 0) ∧
      getVal (analyze_hexagon env) "landuse_breakdown" = some (Value.dict [])) ∧
    (∀ layer e, env.landuse = some layer →
      layer (hexUsed env dem) = .error e →
      getVal (analyze_hexagon env) "dominant_landuse" = some (Value.str "Error") ∧
      getVal (analyze_hexagon env) "dominant_landuse_percentage" = some (Value.num 0) ∧
      getVal (analyze_hexagon env) "landuse_breakdown" = some (Value.dict [])) := by
  have ha := analyze_hexagon_ok env dem hok
  refine ⟨?_, ?_, ?_, ?_⟩
  · intro hl
    rw [ha, getVal_metricsAt_dom, getVal_metricsAt_dompct, getVal_metricsAt_breakdown,
      hl, landuseResults_none]
    exact ⟨rfl, rfl, rfl⟩
  · intro layer data hl hdata hrows
    rw [ha, getVal_metricsAt_dom, getVal_metricsAt_dompct, getVal_metricsAt_breakdown,
      hl, landuseResults_noRows layer (hexUsed env dem) data hdata hrows]
    exact ⟨rfl, rfl, rfl⟩
  · intro layer data hl hdata hcol
    rw [ha, getVal_metricsAt_dom, getVal_metricsAt_dompct, getVal_metricsAt_breakdown,
      hl, landuseResults_noColumn layer (hexUsed env dem) data hdata hcol]
    exact ⟨rfl, rfl, rfl⟩
  · intro layer e hl herr
    rw [ha, getVal_metricsAt_dom, getVal_metricsAt_dompct, getVal_metricsAt_breakdown,
      hl, landuseResults_error layer (hexUsed env dem) e herr]
    exact ⟨rfl, rfl, rfl⟩

/-- Witness for C3 at four concrete environments, one per placeholder path. -/
theorem landuse_placeholder_paths_spec_witness :
    getVal (analyze_hexagon envLuNone) "dominant_landuse" = some (Value.str "No data") ∧
    getVal (analyze_hexagon envLuNoFeatures) "dominant_landuse" = some (Value.str "No data") ∧
    getVal (analyze_hexagon envLuNoColumn) "dominant_landuse" = some (Value.str "No data") ∧
    getVal (analyze_hexagon envLuError) "dominant_landuse" = some (Value.str "Error") :=
  ⟨((landuse_placeholder_paths_spec envLuNone demBase rfl).1 rfl).1,
   ((landuse_placeholder_paths_spec envLuNoFeatures demBase rfl).2.1
     (fun _ => .ok ⟨["fclass"], []⟩) ⟨["fclass"], []⟩ rfl rfl rfl).1,
   ((landuse_placeholder_paths_spec envLuNoColumn demBase rfl).2.2.1
     (fun _ => .ok ⟨["geometry"], [⟨[("name", "x")], 1⟩]⟩)
     ⟨["geometry"], [⟨[("name", "x")], 1⟩]⟩ rfl rfl (by decide)).1,
   ((landuse_placeholder_paths_spec envLuError demBase rfl).2.2.2
     (fun _ => .error ()) () rfl rfl).1⟩

/- ## Claim C4 -/

theorem waterResults_ok (wd : WaterData α) (a : α) (hpos : 0 < a) :
    waterResults (.ok wd) a =
      [("water_percentage",
        Value.num ((wd.zoneAreas.sum + (wd.ways.map wayContribution).sum) / a * 100)),
       ("water_area_sq_m",
        Value.num (wd.zoneAreas.sum + (wd.ways.map wayContribution).sum))] := by
  unfold waterResults
  simp [hpos]

/-- C4: the per-way buffer half-width is chosen by checking fclass then
type, taking the first key among river(20), stream(5), canal(10), drain(2)
found as a substring of the lower-cased value, with default 5; line
features contribute their buffered area; the water area is the zone area
sum plus the buffered way sum with no deduplication, and the percentage is
that area over the hexagon area times 100. -/
theorem water_buffer_spec (env : Env α) (dem : DemData α) (wd : WaterData α)
    (hok : env.demOpen = .ok dem)
    (hw : env.water (hexUsed env dem) = .ok wd)
    (hpos : 0 < env.hexArea (hexUsed env dem)) :
    (∀ f : WaterWayFeature α, wayBufferWidth f = claimWayWidth f.attrs) ∧
    getVal (analyze_hexagon env) "water_area_sq_m" =
      some (Value.num
        (wd.zoneAreas.sum + (wd.ways.map claimWayContribution).sum)) ∧
    getVal (analyze_hexagon env) "water_percentage" =
      some (Value.num
        ((wd.zoneAreas.sum + (wd.ways.map claimWayContribution).sum) /
          env.hexArea (hexUsed env dem) * 100)) := by
  have ha := analyze_hexagon_ok env dem hok
  have hmap : wd.ways.map wayContribution = wd.ways.map claimWayContribution :=
    List.map_congr_left (fun f _ => wayContribution_eq_claim f)
  refine ⟨fun f => wayBufferWidth_eq_claim f, ?_, ?_⟩
  · rw [ha, getVal_metricsAt_warea, hw,
      waterResults_ok wd (env.hexArea (hexUsed env dem)) hpos, hmap]
    rfl
  · rw [ha, getVal_metricsAt_wpct, hw,
      waterResults_ok wd (env.hexArea (hexUsed env dem)) hpos, hmap]
    rfl

/-- A river with fclass "River": lower-cased it contains "river", so the
chosen width must be 20; its buffered area oracle is width ↦ 40 width. -/
def wayRiver : WaterWayFeature ℚ := ⟨[("fclass", "River")], "LineString", fun w => 40 * w⟩

/-- A drainage channel classified only by a type attribute. -/
def wayDrain : WaterWayFeature ℚ := ⟨[("type", "storm_drain")], "LineString", fun w => 6 * w⟩

/-- A way whose intersection degenerated to a point: no contribution. -/
def wayPoint : WaterWayFeature ℚ := ⟨[("fclass", "canal")], "Point", fun w => 9 * w⟩

def wdSample : WaterData ℚ := ⟨[100], [wayRiver, wayDrain, wayPoint]⟩

def envWater : Env ℚ :=
  ⟨.ok demBase, fun c => ⟨c.1, c.2, c.1, c.2⟩, fun _ => 200000, none, none,
   fun _ => .ok wdSample, none⟩

/-- Witness for C4 at a concrete three-way water environment. -/
theorem water_buffer_spec_witness :
    (envWater.water (hexUsed envWater demBase) = .ok wdSample ∧
     0 < envWater.hexArea (hexUsed envWater demBase)) ∧
    ((∀ f : WaterWayFeature ℚ, wayBufferWidth f = claimWayWidth f.attrs) ∧
     getVal (analyze_hexagon envWater) "water_area_sq_m" =
       some (Value.num
         (wdSample.zoneAreas.sum + (wdSample.ways.map claimWayContribution).sum)) ∧
     getVal (analyze_hexagon envWater) "water_percentage" =
       some (Value.num
         ((wdSample.zoneAreas.sum + (wdSample.ways.map claimWayContribution).sum) /
           envWater.hexArea (hexUsed envWater demBase) * 100))) :=
  ⟨⟨rfl, by decide⟩, water_buffer_spec envWater demBase wdSample rfl rfl (by decide)⟩

/- ## Claim C5 -/

theorem seriesIdxmax_of_length (l : List (String × α)) (h : 0 < l.length) :
    ∃ p, seriesIdxmax l = some p := by
  cases l with
  | nil => simp at h
  | cons x xs =>
    cases hm : seriesIdxmax (x :: xs) with
    | none => exact absurd hm (seriesIdxmax_ne_none x xs)
    | some p => exact ⟨p, rfl⟩

theorem landuseResults_ok (layer : (α × α) → Except Unit (LanduseData α))
    (hex : α × α) (data : LanduseData α) (col : String) (dom : String × α)
    (h : layer hex = .ok data) (hr : 0 < data.rows.length)
    (hc : findTypeColumn data.columns = some col)
    (hd : seriesIdxmax (landuseAreas col data.rows) = some dom) :
    landuseResults (some layer) hex =
      [("dominant_landuse", Value.str dom.1),
       ("dominant_landuse_percentage",
        Value.num (dom.2 / ((landuseAreas col data.rows).map (fun kv => kv.2)).sum * 100)),
       ("landuse_breakdown", Value.dict (breakdownOf (landuseAreas col data.rows)))] := by
  unfold landuseResults
  simp [h, hr, hc, hd]

/-- The claim's scenario: two intersecting polygons of areas 300 and 700,
classified by an fclass column as forest and urban. -/
def luData : LanduseData ℚ :=
  ⟨["fclass", "geometry"],
   [⟨[("fclass", "forest")], 300⟩, ⟨[("fclass", "urban")], 700⟩]⟩

def envLuScenario : Env ℚ :=
  ⟨.ok demBase, fun c => ⟨c.1, c.2, c.1, c.2⟩, fun _ => 1000000, none, none,
   fun _ => .error (), some (fun _ => .ok luData)⟩

/-- C5: after intersection, the classification column is the first present
among fclass, type, landuse, TYPE, LANDUSE, class, CLASS (findTypeColumn);
features are grouped by that column with areas summed per group; the
dominant land use carries the largest summed area, its percentage is its
area over the total grouped area times 100, and the breakdown maps each
lower-cased category to its summed area; on the concrete 300-forest /
700-urban scenario the result is urban, 70, and the stated breakdown. -/
theorem landuse_classifier_spec :
    (∀ (β : Type) [LinearOrderedField β] (env : Env β) (dem : DemData β)
        (layer : (β × β) → Except Unit (LanduseData β)) (data : LanduseData β)
        (col : String),
      env.demOpen = .ok dem → env.landuse = some layer →
      layer (hexUsed env dem) = .ok data → 0 < data.rows.length →
      findTypeColumn data.columns = some col →
      0 < (landuseAreas col data.rows).length →
      ∃ dom, seriesIdxmax (landuseAreas col data.rows) = some dom ∧
        dom ∈ landuseAreas col data.rows ∧
        (∀ q ∈ landuseAreas col data.rows, q.2 ≤ dom.2) ∧
        getVal (analyze_hexagon env) "dominant_landuse" = some (Value.str dom.1) ∧
        getVal (analyze_hexagon env) "dominant_landuse_percentage" =
          some (Value.num
            (dom.2 / ((landuseAreas col data.rows).map (fun kv => kv.2)).sum * 100)) ∧
        getVal (analyze_hexagon env) "landuse_breakdown" =
          some (Value.dict (breakdownOf (landuseAreas col data.rows))) ∧
        (((landuseAreas col data.rows).map (fun kv => pyLower kv.1)).Nodup →
          ∀ p ∈ landuseAreas col data.rows,
            dictLookup (breakdownOf (landuseAreas col data.rows)) (pyLower p.1)
              = some p.2)) ∧
    (getVal (analyze_hexagon envLuScenario) "dominant_landuse"
        = some (Value.str "urban") ∧
     getVal (analyze_hexagon envLuScenario) "dominant_landuse_percentage"
        = some (Value.num 70) ∧
     getVal (analyze_hexagon envLuScenario) "landuse_breakdown"
        = some (Value.dict [("forest", 300), ("urban", 700)])) := by
  constructor
  · intro β _ env dem layer data col hok hl hdata hrows hcol hne
    obtain ⟨dom, hdom⟩ := seriesIdxmax_of_length (landuseAreas col data.rows) hne
    have ha := analyze_hexagon_ok env dem hok
    refine ⟨dom, hdom, seriesIdxmax_mem (landuseAreas col data.rows) dom hdom,
      seriesIdxmax_ge (landuseAreas col data.rows) dom hdom, ?_, ?_, ?_, ?_⟩
    · rw [ha, getVal_metricsAt_dom, hl,
        landuseResults_ok layer (hexUsed env dem) data col dom hdata hrows hcol hdom]
      rfl
    · rw [ha, getVal_metricsAt_dompct, hl,
        landuseResults_ok layer (hexUsed env dem) data col dom hdata hrows hcol hdom]
      rfl
    · rw [ha, getVal_metricsAt_breakdown, hl,
        landuseResults_ok layer (hexUsed env dem) data col dom hdata hrows hcol hdom]
      rfl
    · intro hnd p hp
      exact breakdown_lookup (landuseAreas col data.rows) hnd p hp
  · have hkeys : sortKeys (distinctKeys "fclass" luData.rows) = ["forest", "urban"] := by
      decide
    have hfForest : List.filter (fun r => rowValue "fclass" r == "forest") luData.rows
        = [⟨[("fclass", "forest")], 300⟩] := by decide
    have hfUrban : List.filter (fun r => rowValue "fclass" r == "urban") luData.rows
        = [⟨[("fclass", "urban")], 700⟩] := by decide
    have hg1 : groupSum "fclass" luData.rows "forest" = (300 : ℚ) := by
      unfold groupSum
      rw [hfForest]
      norm_num
    have hg2 : groupSum "fclass" luData.rows "urban" = (700 : ℚ) := by
      unfold groupSum
      rw [hfUrban]
      norm_num
    have hareas : landuseAreas "fclass" luData.rows
        = [("forest", (300 : ℚ)), ("urban", 700)] := by
      unfold landuseAreas
      rw [hkeys]
      simp [hg1, hg2]
    have hdom : seriesIdxmax (landuseAreas "fclass" luData.rows)
        = some ("urban", (700 : ℚ)) := by
      rw [hareas]
      norm_num [seriesIdxmax]
    have hbk : breakdownOf [("forest", (300 : ℚ)), ("urban", 700)]
        = [("forest", 300), ("urban", 700)] := by decide
    have ha := analyze_hexagon_ok envLuScenario demBase rfl
    have hlu : envLuScenario.landuse = some (fun _ => .ok luData) := rfl
    have hres := landuseResults_ok (fun _ => Except.ok luData)
      (hexUsed envLuScenario demBase) luData "fclass" ("urban", (700 : ℚ))
      rfl (by decide) (by decide) hdom
    rw [hareas, hbk] at hres
    refine ⟨?_, ?_, ?_⟩
    · rw [ha, getVal_metricsAt_dom, hlu, hres]
      rfl
    · rw [ha, getVal_metricsAt_dompct, hlu, hres]
      show some (Value.num (("urban", (700 : ℚ)).2 /
        (List.map (fun kv => kv.2) [("forest", (300 : ℚ)), ("urban", 700)]).sum * 100))
          = some (Value.num 70)
      norm_num
    · rw [ha, getVal_metricsAt_breakdown, hlu, hres]
      rfl

/-- Witness for C5: the general part applied at the concrete scenario
environment, plus a scenario conclusion. -/
theorem landuse_classifier_spec_witness :
    (∃ dom, seriesIdxmax (landuseAreas "fclass" luData.rows) = some dom ∧
      dom ∈ landuseAreas "fclass" luData.rows ∧
      (∀ q ∈ landuseAreas "fclass" luData.rows, q.2 ≤ dom.2) ∧
      getVal (analyze_hexagon envLuScenario) "dominant_landuse"
        = some (Value.str dom.1) ∧
      getVal (analyze_hexagon envLuScenario) "dominant_landuse_percentage" =
        some (Value.num (dom.2 /
          ((landuseAreas "fclass" luData.rows).map (fun kv => kv.2)).sum * 100)) ∧
      getVal (analyze_hexagon envLuScenario) "landuse_breakdown" =
        some (Value.dict (breakdownOf (landuseAreas "fclass" luData.rows))) ∧
      (((landuseAreas "fclass" luData.rows).map (fun kv => pyLower kv.1)).Nodup →
        ∀ p ∈ landuseAreas "fclass" luData.rows,
          dictLookup (breakdownOf (landuseAreas "fclass" luData.rows)) (pyLower p.1)
            = some p.2)) ∧
    getVal (analyze_hexagon envLuScenario) "dominant_landuse"
      = some (Value.str "urban") :=
  ⟨landuse_classifier_spec.1 ℚ envLuScenario demBase (fun _ => Except.ok luData) luData
     "fclass" rfl rfl rfl (by decide) (by decide) (by decide),
   landuse_classifier_spec.2.1⟩

/- ## Claim C6 -/

/-- C6: create_hexagon_projected is a pure function of (center, radius)
returning a closed polygon of exactly 7 coordinate pairs whose first pair
equals its last, vertex i (i = 0..5) sitting at angle (60 i - 30) degrees
from the center at Euclidean distance exactly the radius. -/
theorem hexagon_builder_spec (cx cy r : ℝ) (h : 0 ≤ r) :
    (create_hexagon_projected cx cy r).length = 7 ∧
    (create_hexagon_projected cx cy r).head?
      = (create_hexagon_projected cx cy r).getLast? ∧
    ∀ i : ℕ, i < 6 →
      (create_hexagon_projected cx cy r)[i]? =
        some (cx + r * Real.cos ((60 * (i : ℝ) - 30) * Real.pi / 180),
              cy + r * Real.sin ((60 * (i : ℝ) - 30) * Real.pi / 180)) ∧
      Real.sqrt (((hexVertex cx cy r i).1 - cx) ^ 2 + ((hexVertex cx cy r i).2 - cy) ^ 2)
        = r := by
  refine ⟨rfl, rfl, ?_⟩
  intro i hi
  refine ⟨?_, hexVertex_dist cx cy r h i⟩
  interval_cases i <;> rfl

/-- Witness for C6 at center (0, 0) and radius 1. -/
theorem hexagon_builder_spec_witness :
    (0 : ℝ) ≤ 1 ∧
    ((create_hexagon_projected 0 0 1).length = 7 ∧
     (create_hexagon_projected 0 0 1).head?
       = (create_hexagon_projected 0 0 1).getLast? ∧
     ∀ i : ℕ, i < 6 →
       (create_hexagon_projected 0 0 1)[i]? =
         some (0 + 1 * Real.cos ((60 * (i : ℝ) - 30) * Real.pi / 180),
               0 + 1 * Real.sin ((60 * (i : ℝ) - 30) * Real.pi / 180)) ∧
       Real.sqrt (((hexVertex 0 0 1 i).1 - 0) ^ 2 + ((hexVertex 0 0 1 i).2 - 0) ^ 2)
         = 1) :=
  ⟨by norm_num, hexagon_builder_spec 0 0 1 (by norm_num)⟩

/- ## Claim C7 -/

/-- An environment whose hexagon-area oracle is the exact shoelace area of
the hexagon the builder constructs with radius 1. -/
noncomputable def envArea : Env ℝ :=
  ⟨.ok ⟨⟨0, 0, 10, 10⟩, (5, 5), fun _ => .error ()⟩, fun c => ⟨c.1, c.2, c.1, c.2⟩,
   fun c => polygonArea (create_hexagon_projected c.1 c.2 1), none, none,
   fun _ => .error (), none⟩

/-- C7: the area of the polygon produced by create_hexagon_projected
equals the analytic regular-hexagon area (3 sqrt 3 / 2) r^2, and when the
analysis environment's area oracle is that polygon area, the returned
hexagon_area_sq_km equals the projected area divided by 1e6. -/
theorem hexagon_area_spec (cx cy r : ℝ) (env : Env ℝ) (dem : DemData ℝ)
    (hok : env.demOpen = .ok dem)
    (harea : env.hexArea = fun c => polygonArea (create_hexagon_projected c.1 c.2 r)) :
    polygonArea (create_hexagon_projected cx cy r) = 3 * Real.sqrt 3 / 2 * r ^ 2 ∧
    getVal (analyze_hexagon env) "hexagon_area_sq_km" =
      some (Value.num (3 * Real.sqrt 3 / 2 * r ^ 2 / 1000000)) := by
  refine ⟨polygonArea_hexagon cx cy r, ?_⟩
  rw [analyze_hexagon_ok env dem hok, getVal_metricsAt_area, harea]
  dsimp only
  have hb := polygonArea_hexagon (hexUsed env dem).1 (hexUsed env dem).2 r
  rw [hb]

/-- Witness for C7 at radius 1 on a concrete environment. -/
theorem hexagon_area_spec_witness :
    polygonArea (create_hexagon_projected 2 3 1) = 3 * Real.sqrt 3 / 2 * 1 ^ 2 ∧
    getVal (analyze_hexagon envArea) "hexagon_area_sq_km" =
      some (Value.num (3 * Real.sqrt 3 / 2 * 1 ^ 2 / 1000000)) :=
  hexagon_area_spec 2 3 1 envArea ⟨⟨0, 0, 10, 10⟩, (5, 5), fun _ => .error ()⟩ rfl rfl

/- ## Claim C8 -/

/-- C8: for roads, buildings and land use, a layer that never loaded or an
exception inside the metric yields exactly that metric's zero/placeholder
entries, and replacing those three layer oracles arbitrarily leaves every
other metric's entries untouched: the assembled mapping splits into
segments each depending only on its own layer (and the shared hexagon). -/
theorem metric_isolation_spec (env : Env α) (dem : DemData α)
    (hok : env.demOpen = .ok dem) :
    (env.roads = none →
      getVal (analyze_hexagon env) "total_road_length_m" = some (Value.num 0)) ∧
    (∀ f e, env.roads = some f → f (hexUsed env dem) = .error e →
      getVal (analyze_hexagon env) "total_road_length_m" = some (Value.num 0)) ∧
    (env.buildings = none →
      getVal (analyze_hexagon env) "building_density" = some (Value.num 0) ∧
      getVal (analyze_hexagon env) "total_building_area_sq_m" = some (Value.num 0)) ∧
    (∀ f e, env.buildings = some f → f (hexUsed env dem) = .error e →
      getVal (analyze_hexagon env) "building_density" = some (Value.num 0) ∧
      getVal (analyze_hexagon env) "total_building_area_sq_m" = some (Value.num 0)) ∧
    (env.landuse = none →
      getVal (analyze_hexagon env) "dominant_landuse" = some (Value.str "No data") ∧
      getVal (analyze_hexagon env) "dominant_landuse_percentage" = some (Value.num 0) ∧
      getVal (analyze_hexagon env) "landuse_breakdown" = some (Value.dict [])) ∧
    (∀ f e, env.landuse = some f → f (hexUsed env dem) = .error e →
      getVal (analyze_hexagon env) "dominant_landuse" = some (Value.str "Error") ∧
      getVal (analyze_hexagon env) "dominant_landuse_percentage" = some (Value.num 0) ∧
      getVal (analyze_hexagon env) "landuse_breakdown" = some (Value.dict [])) ∧
    (∀ r' b' l',
      analyze_hexagon (setLayers env r' b' l') =
        elevationResults dem (hexUsed env dem) ++
        (roadsResults r' (hexUsed env dem) ++
        (buildingsResults b' (env.hexArea (hexUsed env dem)) (hexUsed env dem) ++
        (waterResults (env.water (hexUsed env dem)) (env.hexArea (hexUsed env dem)) ++
        (landuseResults l' (hexUsed env dem) ++
        [("hexagon_area_sq_km",
          Value.num (env.hexArea (hexUsed env dem) / 1000000))])))))  := by
  have ha := analyze_hexagon_ok env dem hok
  refine ⟨?_, ?_, ?_, ?_, ?_, ?_, ?_⟩
  · intro hr
    rw [ha, getVal_metricsAt_roads, hr, roadsResults_none]
    rfl
  · intro f e hr herr
    rw [ha, getVal_metricsAt_roads, hr,
      roadsResults_error f (hexUsed env dem) e herr]
    rfl
  · intro hb
    rw [ha, getVal_metricsAt_density, getVal_metricsAt_barea, hb,
      buildingsResults_none]
    exact ⟨rfl, rfl⟩
  · intro f e hb herr
    rw [ha, getVal_metricsAt_density, getVal_metricsAt_barea, hb,
      buildingsResults_error f (env.hexArea (hexUsed env dem)) (hexUsed env dem) e herr]
    exact ⟨rfl, rfl⟩
  · intro hl
    rw [ha, getVal_metricsAt_dom, getVal_metricsAt_dompct,
      getVal_metricsAt_breakdown, hl, landuseResults_none]
    exact ⟨rfl, rfl, rfl⟩
  · intro f e hl herr
    rw [ha, getVal_metricsAt_dom, getVal_metricsAt_dompct,
      getVal_metricsAt_breakdown, hl,
      landuseResults_error f (hexUsed env dem) e herr]
    exact ⟨rfl, rfl, rfl⟩
  · intro r' b' l'
    have hok' : (setLayers env r' b' l').demOpen = .ok dem := hok
    rw [analyze_hexagon_ok (setLayers env r' b' l') dem hok']
    rfl

/-- An environment with no roads layer, and failing buildings and
land-use metrics. -/
def envIso : Env ℚ :=
  ⟨.ok demBase, fun c => ⟨c.1, c.2, c.1, c.2⟩, fun _ => 1, none,
   some (fun _ => .error ()), fun _ => .error (), some (fun _ => .error ())⟩

/-- Witness for C8: no roads layer gives road length 0, failing buildings
and land-use metrics give their placeholders, and swapping all three
layers out reassembles the mapping from the same non-layer segments. -/
theorem metric_isolation_spec_witness :
    getVal (analyze_hexagon envIso) "total_road_length_m" = some (Value.num 0) ∧
    (getVal (analyze_hexagon envIso) "building_density" = some (Value.num 0) ∧
     getVal (analyze_hexagon envIso) "total_building_area_sq_m" = some (Value.num 0)) ∧
    (getVal (analyze_hexagon envIso) "dominant_landuse" = some (Value.str "Error") ∧
     getVal (analyze_hexagon envIso) "dominant_landuse_percentage" = some (Value.num 0) ∧
     getVal (analyze_hexagon envIso) "landuse_breakdown" = some (Value.dict [])) ∧
    analyze_hexagon (setLayers envIso none none none) =
      elevationResults demBase (hexUsed envIso demBase) ++
      (roadsResults none (hexUsed envIso demBase) ++
      (buildingsResults none (envIso.hexArea (hexUsed envIso demBase))
        (hexUsed envIso demBase) ++
      (waterResults (envIso.water (hexUsed envIso demBase))
        (envIso.hexArea (hexUsed envIso demBase)) ++
      (landuseResults none (hexUsed envIso demBase) ++
      [("hexagon_area_sq_km",
        Value.num (envIso.hexArea (hexUsed envIso demBase) / 1000000))])))) :=
  ⟨(metric_isolation_spec envIso demBase rfl).1 rfl,
   (metric_isolation_spec envIso demBase rfl).2.2.2.1 (fun _ => .error ()) () rfl rfl,
   (metric_isolation_spec envIso demBase rfl).2.2.2.2.2.1 (fun _ => .error ()) () rfl rfl,
   (metric_isolation_spec envIso demBase rfl).2.2.2.2.2.2 none none none⟩

/- ## Claim C9 -/

/-- C9: get_hexagon_geojson never raises; on failure of any internal step
(opening the raster, transforming coordinates, reprojecting the hexagon)
it returns None, and when every step succeeds it returns the GeoJSON
ring. -/
theorem geojson_spec (env : GeoEnv α) :
    (∀ e, env.demOpen = .error e → get_hexagon_geojson env = none) ∧
    (∀ e, env.transform = .error e → get_hexagon_geojson env = none) ∧
    (∀ c e, env.transform = .ok c → env.toWgs84 c = .error e →
      get_hexagon_geojson env = none) ∧
    (∀ c g, env.demOpen = .ok () → env.transform = .ok c → env.toWgs84 c = .ok g →
      get_hexagon_geojson env = some g) := by
  refine ⟨?_, ?_, ?_, ?_⟩
  · intro e he
    unfold get_hexagon_geojson
    rw [he]
  · intro e he
    unfold get_hexagon_geojson
    cases hd : env.demOpen <;> simp [he]
  · intro c e hc he
    unfold get_hexagon_geojson
    cases hd : env.demOpen <;> simp [hc, he]
  · intro c g hd hc hg
    unfold get_hexagon_geojson
    simp [hd, hc, hg]

/-- A geojson environment failing at the raster open. -/
def geoFail1 : GeoEnv ℚ := ⟨.error (), .ok (0, 0), fun _ => .ok []⟩

/-- A geojson environment failing at the coordinate transform. -/
def geoFail2 : GeoEnv ℚ := ⟨.ok (), .error (), fun _ => .ok []⟩

/-- A geojson environment failing at the reprojection to WGS84. -/
def geoFail3 : GeoEnv ℚ := ⟨.ok (), .ok (1, 2), fun _ => .error ()⟩

/-- A geojson environment in which every step succeeds. -/
def geoOk : GeoEnv ℚ := ⟨.ok (), .ok (1, 2), fun _ => .ok [(3, 4)]⟩

/-- Witness for C9 at four concrete environments, one per path. -/
theorem geojson_spec_witness :
    get_hexagon_geojson geoFail1 = none ∧
    get_hexagon_geojson geoFail2 = none ∧
    get_hexagon_geojson geoFail3 = none ∧
    get_hexagon_geojson geoOk = some [(3, 4)] :=
  ⟨(geojson_spec geoFail1).1 () rfl,
   (geojson_spec geoFail2).2.1 () rfl,
   (geojson_spec geoFail3).2.2.1 (1, 2) () rfl rfl,
   (geojson_spec geoOk).2.2.2 (1, 2) [(3, 4)] rfl rfl rfl⟩
